import Mathlib

/-
Verification development for the CloudPriceFinder data pipeline.

The development shallowly embeds the parts of the repository that the
checked properties are about:

  * scripts/utils/data_validator.py   (validate_instance_data)
  * scripts/utils/data_normalizer.py  (normalize_instance_data and the
                                       per-provider normalizers)
  * scripts/orchestrator.py           (_fetch_provider_data,
                                       fetch_all_providers, the aggregation
                                       loop of run(), _generate_summary)
  * scripts/fetch_hetzner.py          (get_from_cache / set_cache /
                                       make_api_request)
  * scripts/fetch_hetzner_v2.py       (HetznerAPIClient._make_request)

Python values are modelled by the inductive type PyVal: numbers (int and
float collapsed to rationals), booleans (a subclass of int in Python),
strings, None, lists and string-keyed dicts.  Python dicts appearing as
records are association lists in insertion order; dict assignment replaces
in place, and lookups take the first match (keys are unique by
construction).  Exceptions are modelled with Except; a caught-and-ignored
exception becomes an explicit fallback value at the catch site, exactly as
in the corresponding try/except block.  Wall-clock effects (time.sleep,
datetime.now) are modelled by explicit clock parameters and by recording
the sequence of sleeps performed.
-/

/-- Model of a Python value as it occurs in this pipeline.  int and float
are collapsed into one rational-number constructor; bool is kept separate
but is treated as numeric wherever Python treats bool as a subclass of
int. -/
inductive PyVal where
  | none
  | bool (b : Bool)
  | num (q : ℚ)
  | str (s : String)
  | list (xs : List PyVal)
  | dict (entries : List (String × PyVal))

/-- A Python dict with string keys, in insertion order. -/
abbrev PyDict := List (String × PyVal)

/-- Python truthiness (`if x:`). -/
def pyTruthy : PyVal → Bool
  | .none => false
  | .bool b => b
  | .num q => decide (q ≠ 0)
  | .str s => decide (s ≠ "")
  | .list xs => !xs.isEmpty
  | .dict es => !es.isEmpty

/-- Python `isinstance(x, (int, float))`.  True for bool as well, since
bool is a subclass of int in Python. -/
def pyIsNum : PyVal → Bool
  | .bool _ => true
  | .num _ => true
  | _ => false

/-- Numeric value of a PyVal; only consulted after a pyIsNum guard
(True counts as 1 and False as 0, as in Python arithmetic). -/
def pyToQ : PyVal → ℚ
  | .bool b => if b then 1 else 0
  | .num q => q
  | _ => 0

/-- Python `d.get(k, dflt)`. -/
def dGet (d : PyDict) (k : String) (dflt : PyVal) : PyVal :=
  (List.lookup k d).getD dflt

/-- ASCII whitespace stripped by Python's str.strip(). -/
def isSpaceChar (c : Char) : Bool :=
  c == ' ' || c == '\t' || c == '\n' || c == '\r' || c == '\x0b' || c == '\x0c'

/-- Python `s.strip()`: remove leading and trailing whitespace. -/
def pyStrip (s : String) : String :=
  ⟨((s.data.dropWhile isSpaceChar).reverse.dropWhile isSpaceChar).reverse⟩

/- ===================================================================
   scripts/utils/data_validator.py
   =================================================================== -/

def REQUIRED_FIELDS : List String :=
  ["provider", "type", "instanceType", "priceUSD_hourly", "lastUpdated"]

def VALID_PROVIDERS : List String :=
  ["aws", "azure", "gcp", "hetzner", "oci", "ovh"]

def VALID_TYPES : List String :=
  ["cloud-server", "cloud-loadbalancer", "cloud-volume", "cloud-network",
   "cloud-floating-ip", "cloud-snapshot", "cloud-certificate",
   "dedicated-server", "dedicated-auction", "dedicated-storage",
   "dedicated-colocation"]

/-- Lines 45-48: every required field must be present. -/
def requiredFieldsOk (r : PyDict) : Bool :=
  REQUIRED_FIELDS.all (fun f => (List.lookup f r).isSome)

/-- Lines 51-53: `instance['provider'] not in VALID_PROVIDERS` rejects.
A non-string provider value never equals a string in the allow-list. -/
def providerOk (r : PyDict) : Bool :=
  match List.lookup "provider" r with
  | some (.str s) => VALID_PROVIDERS.contains s
  | _ => false

/-- Lines 56-58: same for `type`. -/
def typeOk (r : PyDict) : Bool :=
  match List.lookup "type" r with
  | some (.str s) => VALID_TYPES.contains s
  | _ => false

/-- Lines 61-69: a numeric field that is present and not None must be an
int or float and strictly positive.  An absent or None field passes. -/
def optionalNumOk (r : PyDict) (field : String) : Bool :=
  match List.lookup field r with
  | Option.none => true
  | some .none => true
  | some v => pyIsNum v && decide (0 < pyToQ v)

/-- Value-level pricing test of lines 72-75: isinstance(int or float) and
strictly positive. -/
def posNumCheck (v : PyVal) : Bool :=
  pyIsNum v && decide (0 < pyToQ v)

/-- Lines 71-79: a record needs a positive USD hourly price or a positive
EUR hourly price; `.get` defaults to None, which fails isinstance. -/
def pricingOk (r : PyDict) : Bool :=
  posNumCheck (dGet r "priceUSD_hourly" .none) ||
  posNumCheck (dGet r "priceEUR_hourly_net" .none)

/-- Lines 82-84: `instance['instanceType'].strip()` must be non-empty.
A non-string value has no .strip(), raising AttributeError, which the
enclosing try/except turns into False. -/
def instanceTypeOk (r : PyDict) : Bool :=
  match List.lookup "instanceType" r with
  | some (.str s) => decide (pyStrip s ≠ "")
  | _ => false

def COMPUTE_TYPES : List String :=
  ["cloud-server", "dedicated-server", "dedicated-auction"]

/-- One spec field of the compute check, lines 88-93:
`if not instance.get(f) or instance.get(f, 0) <= 0: return False`.
The field must be truthy, and the comparison with 0 must not raise
(so the value must be numeric) and must be strictly positive. -/
def specOk (v : PyVal) : Bool :=
  pyTruthy v && pyIsNum v && decide (0 < pyToQ v)

/-- Lines 87-93: compute-type records need valid vCPU and memoryGiB.
A non-string or missing type never matches the compute list (the earlier
checks already rejected such records anyway). -/
def computeSpecsOk (r : PyDict) : Bool :=
  match List.lookup "type" r with
  | some (.str t) =>
    if COMPUTE_TYPES.contains t then
      specOk (dGet r "vCPU" .none) && specOk (dGet r "memoryGiB" .none)
    else true
  | _ => true

/-- Model of validate_instance_data, lines 33-99: the sequential early-return
chain of checks; an exception anywhere is caught and yields False, which
each individual check already accounts for at its own failure points. -/
def validate_instance_data (r : PyDict) : Bool :=
  requiredFieldsOk r && providerOk r && typeOk r &&
  optionalNumOk r "vCPU" && optionalNumOk r "memoryGiB" &&
  pricingOk r && instanceTypeOk r && computeSpecsOk r

/-- The Option holds a numeric value that is strictly positive. -/
def PyPosNum (o : Option PyVal) : Prop :=
  ∃ v, o = some v ∧ pyIsNum v = true ∧ 0 < pyToQ v

/-- The Option is absent or holds a non-positive number. -/
def MissingOrNonPos (o : Option PyVal) : Prop :=
  o = Option.none ∨ ∃ q : ℚ, q ≤ 0 ∧ o = some (.num q)

/- ===================================================================
   scripts/utils/data_normalizer.py
   =================================================================== -/

/-- Exceptions that the normalizer code can raise. -/
inductive PyErr where
  | typeError
  | valueError (msg : String)
  | keyError (k : String)
deriving DecidableEq

/-- Python `x * 1.1` restricted to the values this code can feed it:
numbers (and bools) multiply, everything else raises TypeError. -/
def pyMul11 : PyVal → Except PyErr ℚ
  | .num q => .ok (q * (11 / 10))
  | .bool b => .ok (if b then 11 / 10 else 0)
  | _ => .error .typeError

/-- Lines 50-51: `eur * 1.1 if eur else 0`; the truthiness test comes
first, so a falsy non-number produces 0 without raising. -/
def convUSD (v : PyVal) : Except PyErr ℚ :=
  if pyTruthy v then pyMul11 v else .ok 0

/-- Executable floor of a rational (numerator floor-divided by the
positive denominator). -/
def ratFloor (x : ℚ) : ℤ :=
  x.num.fdiv x.den

/-- Round half to even (Python's round), on exact rationals. -/
def roundHalfEven (x : ℚ) : ℤ :=
  let f := ratFloor x
  let r := x - f
  if r < 1 / 2 then f
  else if 1 / 2 < r then f + 1
  else if f % 2 = 0 then f else f + 1

/-- Python `round(x, n)` on exact rationals (the source rounds floats;
float representation error is outside this model). -/
def pyRound (x : ℚ) (n : ℕ) : ℚ :=
  (roundHalfEven (x * 10 ^ n) : ℚ) / 10 ^ n

/-- Model of _normalize_hetzner, data_normalizer.py lines 43-74.  `now` stands for
`datetime.now().isoformat()`.  Note that diskType and diskSizeGB use
`data.get(k)` whose default is None. -/
def _normalize_hetzner (d : PyDict) (now : String) : Except PyErr PyDict :=
  let eurH := dGet d "priceEUR_hourly_net" (.num 0)
  let eurM := dGet d "priceEUR_monthly_net" (.num 0)
  match convUSD eurH with
  | .error e => .error e
  | .ok usdH =>
    match convUSD eurM with
    | .error e => .error e
    | .ok usdM =>
      .ok [("provider", .str "hetzner"),
           ("type", dGet d "type" (.str "cloud-server")),
           ("instanceType", dGet d "instanceType" (.str "")),
           ("vCPU", dGet d "vCPU" (.num 0)),
           ("memoryGiB", dGet d "memoryGiB" (.num 0)),
           ("diskType", dGet d "diskType" .none),
           ("diskSizeGB", dGet d "diskSizeGB" .none),
           ("priceUSD_hourly", .num (pyRound usdH 6)),
           ("priceUSD_monthly", .num (pyRound usdM 2)),
           ("originalPrice", .dict [("hourly", eurH), ("monthly", eurM),
                                    ("currency", .str "EUR")]),
           ("regions", dGet d "locations" (.list [])),
           ("deprecated", dGet d "deprecated" (.bool false)),
           ("source", dGet d "source" (.str "hetzner_api")),
           ("description", dGet d "description" (.str "")),
           ("lastUpdated", .str now),
           ("raw", .dict d)]

/-- Python `x * n` for a non-negative int n: numbers multiply, strings
and lists repeat, None and dicts raise TypeError. -/
def pyMulNat (v : PyVal) (n : ℕ) : Except PyErr PyVal :=
  match v with
  | .num q => .ok (.num (q * n))
  | .bool b => .ok (.num ((if b then 1 else 0) * (n : ℚ)))
  | .str s => .ok (.str (String.join (List.replicate n s)))
  | .list xs => .ok (.list (List.flatten (List.replicate n xs)))
  | _ => .error .typeError

/-- Shared shape of the placeholder normalizers (lines 76-149): aws,
azure, gcp, oci and ovh are textually identical up to the provider
name.  `priceUSD_monthly` is `data.get('priceUSD', 0) * 24 * 30`. -/
def normalizePlaceholder (providerName : String) (d : PyDict) (now : String) :
    Except PyErr PyDict :=
  let p := dGet d "priceUSD" (.num 0)
  match pyMulNat p (24 * 30) with
  | .error e => .error e
  | .ok pm =>
    .ok [("provider", .str providerName),
         ("type", .str "cloud-server"),
         ("instanceType", dGet d "instanceType" (.str "")),
         ("vCPU", dGet d "vCPU" (.num 0)),
         ("memoryGiB", dGet d "memoryGiB" (.num 0)),
         ("priceUSD_hourly", p),
         ("priceUSD_monthly", pm),
         ("regions", dGet d "regions" (.list [])),
         ("lastUpdated", .str now),
         ("raw", .dict d)]

def _normalize_aws (d : PyDict) (now : String) : Except PyErr PyDict :=
  normalizePlaceholder "aws" d now

def _normalize_azure (d : PyDict) (now : String) : Except PyErr PyDict :=
  normalizePlaceholder "azure" d now

def _normalize_gcp (d : PyDict) (now : String) : Except PyErr PyDict :=
  normalizePlaceholder "gcp" d now

def _normalize_oci (d : PyDict) (now : String) : Except PyErr PyDict :=
  normalizePlaceholder "oci" d now

def _normalize_ovh (d : PyDict) (now : String) : Except PyErr PyDict :=
  normalizePlaceholder "ovh" d now

/-- Model of normalize_instance_data, lines 12-41: dispatch on the provider name;
an unknown provider raises ValueError, and the try/except around the
dispatch logs and re-raises, so every error of a provider-specific
normalizer propagates to the caller unchanged. -/
def normalize_instance_data (d : PyDict) (provider : String) (now : String) :
    Except PyErr PyDict :=
  if provider = "hetzner" then _normalize_hetzner d now
  else if provider = "aws" then _normalize_aws d now
  else if provider = "azure" then _normalize_azure d now
  else if provider = "gcp" then _normalize_gcp d now
  else if provider = "oci" then _normalize_oci d now
  else if provider = "ovh" then _normalize_ovh d now
  else .error (.valueError ("Unknown provider: " ++ provider))

/- ===================================================================
   scripts/orchestrator.py
   =================================================================== -/

/-- Provider submission order: the insertion order of the self.providers
dict built in CloudDataOrchestrator.__init__ (lines 54-61), which is the
order in which fetch_all_providers submits tasks. -/
def PROVIDERS : List String :=
  ["hetzner", "aws", "azure", "gcp", "oci", "ovh"]

/-- Model of _fetch_provider_data, lines 170-186: run one provider's fetch
function; an exception is caught and returned as (provider, [], str(e)).
`impl` maps a provider name to its fetch function's outcome, an
exception being its str(e) message. -/
def _fetch_provider_data (impl : String → Except String (List PyDict))
    (provider : String) : String × List PyDict × Option String :=
  match impl provider with
  | .ok data => (provider, data, Option.none)
  | .error e => (provider, [], some e)

/-- The orchestrator's two result maps (self.results / self.errors),
as insertion-ordered association lists. -/
structure OrchestratorState where
  results : List (String × List PyDict)
  errors : List (String × String)

/-- Model of fetch_all_providers, lines 188-209: futures are consumed in the
order as_completed yields them (`completionOrder`); for each, `if error:`
is Python truthiness, so a None error or an EMPTY error string takes the
success branch and stores the returned data, while a non-empty error
string is recorded in self.errors with an empty result list. -/
def fetch_all_providers (impl : String → Except String (List PyDict)) :
    List String → OrchestratorState
  | [] => ⟨[], []⟩
  | p :: rest =>
    let t := _fetch_provider_data impl p
    let st := fetch_all_providers impl rest
    match t.2.2 with
    | some e =>
      if e = "" then ⟨(t.1, t.2.1) :: st.results, st.errors⟩
      else ⟨(t.1, []) :: st.results, (t.1, e) :: st.errors⟩
    | Option.none => ⟨(t.1, t.2.1) :: st.results, st.errors⟩

/-- The aggregation loop of run(), lines 268-271:
`for provider, data in self.results.items(): all_data.extend(data)`. -/
def combineResults (st : OrchestratorState) : List PyDict :=
  st.results.foldl (fun acc pr => acc ++ pr.2) []

/-- What one provider contributes to self.results: its records on
success, the empty list on failure. -/
def providerContribution (impl : String → Except String (List PyDict))
    (p : String) : List PyDict :=
  match impl p with
  | .ok data => data
  | .error _ => []

/-- C4 counterexample inputs: hetzner and aws succeed with one record
each, every other provider returns nothing, and the aws future completes
first. -/
def c4impl : String → Except String (List PyDict) :=
  fun p =>
    if p = "hetzner" then .ok [[("n", PyVal.num 1)]]
    else if p = "aws" then .ok [[("n", PyVal.num 2)]]
    else .ok []

/-- C1 counterexample inputs: the hetzner fetch function raises an
exception whose str() is empty on every call. -/
def c1impl : String → Except String (List PyDict) :=
  fun p => if p = "hetzner" then .error "" else .ok []

/-- C1 witness inputs: hetzner raises "boom" on every call, aws returns
one record, the other providers return nothing. -/
def c1wimpl : String → Except String (List PyDict) :=
  fun p =>
    if p = "hetzner" then .error "boom"
    else if p = "aws" then .ok [[("n", PyVal.num 3)]]
    else .ok []

/- ===================================================================
   _generate_summary (orchestrator.py lines 211-253)
   =================================================================== -/

/-- The summary dict has a fixed shape, so it is modelled as a structure.
`errors` is an Option because the empty-data branch of _generate_summary
builds a dict WITHOUT the errors key. -/
structure Summary where
  totalInstances : ℕ
  providersCount : ℕ
  lastUpdated : String
  priceMin : PyVal
  priceMax : PyVal
  byProvider : List (PyVal × ℕ)
  byType : List (PyVal × ℕ)
  errors : Option (List (String × String))

/-- Python dict-key equality for the hashable scalars that can reach the
by_provider / by_type maps (True == 1 in Python, so bool and num compare
numerically). -/
def pyKeyEq (a b : PyVal) : Bool :=
  match a, b with
  | .none, .none => true
  | .bool x, .bool y => x == y
  | .bool x, .num y => decide ((if x then (1 : ℚ) else 0) = y)
  | .num x, .bool y => decide (x = (if y then (1 : ℚ) else 0))
  | .num x, .num y => decide (x = y)
  | .str x, .str y => x == y
  | _, _ => false

/-- Python hashability: lists and dicts cannot be dict keys. -/
def pyHashable : PyVal → Bool
  | .list _ => false
  | .dict _ => false
  | _ => true

/-- One step of `if k not in m: m[k] = 0; m[k] += 1`, preserving dict
insertion order. -/
def bumpCount (m : List (PyVal × ℕ)) (k : PyVal) : List (PyVal × ℕ) :=
  if m.any (fun e => pyKeyEq e.1 k) then
    m.map (fun e => if pyKeyEq e.1 k then (e.1, e.2 + 1) else e)
  else m ++ [(k, 1)]

/-- The grouping loops of lines 226-240: `item[key]` raises KeyError when
the field is missing, and an unhashable key raises TypeError. -/
def countBy (key : String) :
    List PyDict → List (PyVal × ℕ) → Except PyErr (List (PyVal × ℕ))
  | [], acc => .ok acc
  | it :: rest, acc =>
    match List.lookup key it with
    | Option.none => .error (.keyError key)
    | some k =>
      if pyHashable k then countBy key rest (bumpCount acc k)
      else .error .typeError

/-- Python `v > 0` for the price filter on line 224: numbers and bools
compare, anything else raises TypeError. -/
def pyGtZero (v : PyVal) : Except PyErr Bool :=
  match v with
  | .num q => .ok (decide (0 < q))
  | .bool b => .ok b
  | _ => .error .typeError

/-- The list comprehension of line 224:
`[item['priceUSD_hourly'] for item in all_data if item['priceUSD_hourly'] > 0]`. -/
def collectPrices : List PyDict → Except PyErr (List PyVal)
  | [] => .ok []
  | it :: rest =>
    match List.lookup "priceUSD_hourly" it with
    | Option.none => .error (.keyError "priceUSD_hourly")
    | some v =>
      match pyGtZero v with
      | .error e => .error e
      | .ok b =>
        match collectPrices rest with
        | .error e => .error e
        | .ok tail => .ok (if b then v :: tail else tail)

/-- Python min over a non-empty list, keeping the first of equal
elements.  Every element has already passed the `> 0` comparison, so it
is numeric and pyToQ is its value. -/
def pyMinList (h : PyVal) (t : List PyVal) : PyVal :=
  t.foldl (fun acc b => if pyToQ b < pyToQ acc then b else acc) h

/-- Python max over a non-empty list, keeping the first of equal
elements. -/
def pyMaxList (h : PyVal) (t : List PyVal) : PyVal :=
  t.foldl (fun acc b => if pyToQ acc < pyToQ b then b else acc) h

/-- Model of _generate_summary, lines 211-253.  The empty-data early return at
lines 213-221 omits the errors key; the main branch at lines 242-253
includes `'errors': self.errors`. -/
def _generate_summary (allData : List PyDict) (errors : List (String × String))
    (now : String) : Except PyErr Summary :=
  if allData.isEmpty then
    .ok ⟨0, 0, now, .num 0, .num 0, [], [], Option.none⟩
  else
    match collectPrices allData with
    | .error e => .error e
    | .ok prices =>
      match countBy "provider" allData [] with
      | .error e => .error e
      | .ok byProv =>
        match countBy "type" allData [] with
        | .error e => .error e
        | .ok byType =>
          .ok ⟨allData.length, byProv.length, now,
               (match prices with | [] => .num 0 | h :: t => pyMinList h t),
               (match prices with | [] => .num 0 | h :: t => pyMaxList h t),
               byProv, byType, some errors⟩

/- ===================================================================
   scripts/fetch_hetzner.py — HTTP client with retry and cache
   =================================================================== -/

/-- Outcome of one attempt of `requests.get` plus body parsing: an HTTP
status with the parsed JSON body of a 200 (Option.none standing for a
body that makes response.json() raise), or a transport-level failure.
otherExc is any exception outside requests.exceptions. -/
inductive HttpResp where
  | status (code : ℕ) (body : Option PyVal)
  | timeout
  | connError
  | reqExc
  | otherExc

/-- A recorded sleep: the fixed rate_limit_delay() or a time.sleep of the
given number of seconds. -/
inductive Sleep where
  | rate
  | back (secs : ℚ)
deriving DecidableEq

/-- API_RATE_LIMIT_DELAY = 0.1 (line 59). -/
def API_RATE_LIMIT_DELAY : ℚ := 1 / 10

/-- API_RETRY_DELAY = 1.0 (line 61). -/
def API_RETRY_DELAY : ℚ := 1

/-- CACHE_DURATION = 300 seconds (line 63). -/
def CACHE_DURATION : ℚ := 300

/-- The module-level _api_cache: key -> (data, timestamp), in insertion
order. -/
abbrev Cache := List (String × PyVal × ℚ)

def cacheFind : Cache → String → Option (PyVal × ℚ)
  | [], _ => Option.none
  | (k, d, ts) :: rest, key =>
    if k = key then some (d, ts) else cacheFind rest key

/-- `del _api_cache[key]`. -/
def eraseKey : Cache → String → Cache
  | [], _ => []
  | (k, d, ts) :: rest, key =>
    if k = key then rest else (k, d, ts) :: eraseKey rest key

/-- Model of get_from_cache, lines 81-92: return a fresh entry, delete an expired
one.  `now` stands for datetime.now() in seconds. -/
def get_from_cache (c : Cache) (key : String) (now : ℚ) : Option PyVal × Cache :=
  match cacheFind c key with
  | some (d, ts) =>
    if now - ts < CACHE_DURATION then (some d, c) else (Option.none, eraseKey c key)
  | Option.none => (Option.none, c)

/-- Model of set_cache, lines 94-97: dict assignment replaces in place or appends. -/
def set_cache (c : Cache) (key : String) (d : PyVal) (now : ℚ) : Cache :=
  if (cacheFind c key).isSome then
    c.map (fun e => if e.1 = key then (key, d, now) else e)
  else c ++ [(key, d, now)]

/-- Observable outcome of one make_api_request call: the returned value,
the cache afterwards, how many network requests were issued, and the
sleeps performed in order.  The model clock does not advance within a
single call. -/
structure RunOut where
  result : Option PyVal
  cache : Cache
  calls : ℕ
  sleeps : List Sleep

/-- The retry loop of make_api_request, lines 121-184.  `resp attempt` is
what the network does on that attempt.  `fuel` is the number of loop
iterations left (the loop runs `range(retry_count + 1)`); falling out of
the loop returns None (lines 183-184).  Per iteration: rate limiting only
when attempt > 0 (lines 124-125); 200 caches and returns, a 200 whose
body fails to parse is caught by an except clause and breaks; 401, 403
and 404 return None; 429 sleeps API_RETRY_DELAY * 2^attempt and
continues; 5xx sleeps the same backoff and continues only when attempts
remain; other statuses return None; Timeout and ConnectionError back off
and continue while attempts remain; other request exceptions and
unexpected exceptions break out. -/
def makeApiRequestLoop (resp : ℕ → HttpResp) (retryCount : ℕ) (key : String)
    (now : ℚ) (c : Cache) :
    ℕ → ℕ → ℕ → List Sleep → RunOut
  | 0, _, calls, sleeps => ⟨Option.none, c, calls, sleeps⟩
  | fuel + 1, attempt, calls, sleeps =>
    let sleeps := if 0 < attempt then sleeps ++ [Sleep.rate] else sleeps
    let calls := calls + 1
    match resp attempt with
    | .status code body =>
      if code = 200 then
        match body with
        | some data => ⟨some data, set_cache c key data now, calls, sleeps⟩
        | Option.none => ⟨Option.none, c, calls, sleeps⟩
      else if code = 401 ∨ code = 403 ∨ code = 404 then
        ⟨Option.none, c, calls, sleeps⟩
      else if code = 429 then
        makeApiRequestLoop resp retryCount key now c fuel (attempt + 1) calls
          (sleeps ++ [Sleep.back (API_RETRY_DELAY * 2 ^ attempt)])
      else if 500 ≤ code ∧ code < 600 then
        if attempt < retryCount then
          makeApiRequestLoop resp retryCount key now c fuel (attempt + 1) calls
            (sleeps ++ [Sleep.back (API_RETRY_DELAY * 2 ^ attempt)])
        else
          makeApiRequestLoop resp retryCount key now c fuel (attempt + 1) calls
            sleeps
      else ⟨Option.none, c, calls, sleeps⟩
    | .timeout =>
      if attempt < retryCount then
        makeApiRequestLoop resp retryCount key now c fuel (attempt + 1) calls
          (sleeps ++ [Sleep.back (API_RETRY_DELAY * 2 ^ attempt)])
      else
        makeApiRequestLoop resp retryCount key now c fuel (attempt + 1) calls
          sleeps
    | .connError =>
      if attempt < retryCount then
        makeApiRequestLoop resp retryCount key now c fuel (attempt + 1) calls
          (sleeps ++ [Sleep.back (API_RETRY_DELAY * 2 ^ attempt)])
      else
        makeApiRequestLoop resp retryCount key now c fuel (attempt + 1) calls
          sleeps
    | .reqExc => ⟨Option.none, c, calls, sleeps⟩
    | .otherExc => ⟨Option.none, c, calls, sleeps⟩

/-- Model of make_api_request, lines 99-184: cache key from url and str(params),
cache check first (a hit issues no network call), then the retry loop
with retry_count + 1 iterations. -/
def make_api_request (resp : ℕ → HttpResp) (retryCount : ℕ)
    (url params : String) (cache : Cache) (now : ℚ) : RunOut :=
  let key := url ++ "_" ++ params
  match get_from_cache cache key now with
  | (some data, c) => ⟨some data, c, 0, []⟩
  | (Option.none, c) =>
    makeApiRequestLoop resp retryCount key now c (retryCount + 1) 0 0 []

/- ===================================================================
   scripts/fetch_hetzner_v2.py — HetznerAPIClient._make_request
   =================================================================== -/

/-- The v2 client's return behaviour: a returned value, or an exception
propagating out of _make_request (its only except clause catches
RequestException, so any other exception escapes). -/
inductive V2Result where
  | ret (v : Option PyVal)
  | raised

structure V2RunOut where
  result : V2Result
  cache : Cache
  calls : ℕ
  sleeps : List Sleep

namespace HetznerAPIClient

/-- Model of _get_from_cache, fetch_hetzner_v2.py lines 57-63: unlike v1, an
expired entry is left in place. -/
def _get_from_cache (c : Cache) (key : String) (now : ℚ) : Option PyVal :=
  match cacheFind c key with
  | some (d, ts) => if now - ts < CACHE_DURATION then some d else Option.none
  | Option.none => Option.none

/-- The retry loop of _make_request, lines 79-121: the rate-limit sleep
happens unconditionally at the top of EVERY iteration (line 81); 200
caches and returns (a JSON parse failure is caught and returns None);
401 and 403 return None; 429 sleeps 2^attempt and continues; every other
status (404 and 5xx included) only logs and lets the loop move on with
no backoff; RequestException backs off 2^attempt while attempts remain;
any other exception is uncaught and propagates. -/
def makeRequestLoop (resp : ℕ → HttpResp) (retryCount : ℕ) (key : String)
    (now : ℚ) (c : Cache) :
    ℕ → ℕ → ℕ → List Sleep → V2RunOut
  | 0, _, calls, sleeps => ⟨.ret Option.none, c, calls, sleeps⟩
  | fuel + 1, attempt, calls, sleeps =>
    let sleeps := sleeps ++ [Sleep.rate]
    let calls := calls + 1
    match resp attempt with
    | .status code body =>
      if code = 200 then
        match body with
        | some data => ⟨.ret (some data), set_cache c key data now, calls, sleeps⟩
        | Option.none => ⟨.ret Option.none, c, calls, sleeps⟩
      else if code = 401 ∨ code = 403 then
        ⟨.ret Option.none, c, calls, sleeps⟩
      else if code = 429 then
        makeRequestLoop resp retryCount key now c fuel (attempt + 1) calls
          (sleeps ++ [Sleep.back (2 ^ attempt)])
      else
        makeRequestLoop resp retryCount key now c fuel (attempt + 1) calls sleeps
    | .timeout =>
      if attempt < retryCount then
        makeRequestLoop resp retryCount key now c fuel (attempt + 1) calls
          (sleeps ++ [Sleep.back (2 ^ attempt)])
      else
        makeRequestLoop resp retryCount key now c fuel (attempt + 1) calls sleeps
    | .connError =>
      if attempt < retryCount then
        makeRequestLoop resp retryCount key now c fuel (attempt + 1) calls
          (sleeps ++ [Sleep.back (2 ^ attempt)])
      else
        makeRequestLoop resp retryCount key now c fuel (attempt + 1) calls sleeps
    | .reqExc =>
      if attempt < retryCount then
        makeRequestLoop resp retryCount key now c fuel (attempt + 1) calls
          (sleeps ++ [Sleep.back (2 ^ attempt)])
      else
        makeRequestLoop resp retryCount key now c fuel (attempt + 1) calls sleeps
    | .otherExc => ⟨.raised, c, calls, sleeps⟩

/-- Model of _make_request, lines 69-121: cache key from url and str(headers);
a cache hit returns without touching the network; retryCount stands for
config.api_retry_count (3). -/
def _make_request (resp : ℕ → HttpResp) (retryCount : ℕ)
    (url headers : String) (cache : Cache) (now : ℚ) : V2RunOut :=
  let key := "http_" ++ url ++ "_" ++ headers
  match _get_from_cache cache key now with
  | some data => ⟨.ret (some data), cache, 0, []⟩
  | Option.none =>
    makeRequestLoop resp retryCount key now cache (retryCount + 1) 0 0 []

end HetznerAPIClient

/-- Project backoff sleeps (time.sleep calls) out of a sleep trace,
discarding rate-limit delays. -/
def backoffSecs : Sleep → Option ℚ
  | .rate => Option.none
  | .back s => some s

/- ===================================================================
   Theorems for the claims
   =================================================================== -/

/-- C2 counterexample: a record whose priceUSD_hourly is -1 but whose
priceEUR_hourly_net is 2 is accepted by validate_instance_data, so a
validated record can carry a negative priceUSD_hourly, contrary to the
claim. -/
theorem c2_counterexample :
    validate_instance_data
      [("provider", PyVal.str "hetzner"), ("type", PyVal.str "cloud-volume"),
       ("instanceType", PyVal.str "cx11"), ("priceUSD_hourly", PyVal.num (-1)),
       ("lastUpdated", PyVal.str "t"),
       ("priceEUR_hourly_net", PyVal.num 2)] = true ∧
    List.lookup "priceUSD_hourly"
      [("provider", PyVal.str "hetzner"), ("type", PyVal.str "cloud-volume"),
       ("instanceType", PyVal.str "cx11"), ("priceUSD_hourly", PyVal.num (-1)),
       ("lastUpdated", PyVal.str "t"),
       ("priceEUR_hourly_net", PyVal.num 2)] = some (PyVal.num (-1)) := by
  exact ⟨rfl, rfl⟩

/-- C2 amended: every record accepted by validate_instance_data carries a
strictly positive numeric priceUSD_hourly or a strictly positive numeric
priceEUR_hourly_net; a negative priceUSD_hourly is rejected only when no
positive EUR hourly price is present. -/
theorem c2_validated_price_amended (r : PyDict)
    (h : validate_instance_data r = true) :
    PyPosNum (List.lookup "priceUSD_hourly" r) ∨
    PyPosNum (List.lookup "priceEUR_hourly_net" r) := by
  have hp : pricingOk r = true := by
    simp only [validate_instance_data, Bool.and_eq_true] at h
    exact h.1.1.2
  simp only [pricingOk, Bool.or_eq_true] at hp
  rcases hp with hu | he
  · left
    simp only [posNumCheck, Bool.and_eq_true, decide_eq_true_eq] at hu
    cases hv : List.lookup "priceUSD_hourly" r with
    | none => rw [dGet, hv] at hu; simp [pyIsNum] at hu
    | some v => rw [dGet, hv] at hu; exact ⟨v, rfl, hu.1, hu.2⟩
  · right
    simp only [posNumCheck, Bool.and_eq_true, decide_eq_true_eq] at he
    cases hv : List.lookup "priceEUR_hourly_net" r with
    | none => rw [dGet, hv] at he; simp [pyIsNum] at he
    | some v => rw [dGet, hv] at he; exact ⟨v, rfl, he.1, he.2⟩

/-- Witness for c2_validated_price_amended at a concrete record. -/
theorem c2_validated_price_amended_witness :
    PyPosNum (List.lookup "priceUSD_hourly"
      [("provider", PyVal.str "aws"), ("type", PyVal.str "cloud-volume"),
       ("instanceType", PyVal.str "m5"), ("priceUSD_hourly", PyVal.num 3),
       ("lastUpdated", PyVal.str "t")]) ∨
    PyPosNum (List.lookup "priceEUR_hourly_net"
      [("provider", PyVal.str "aws"), ("type", PyVal.str "cloud-volume"),
       ("instanceType", PyVal.str "m5"), ("priceUSD_hourly", PyVal.num 3),
       ("lastUpdated", PyVal.str "t")]) :=
  c2_validated_price_amended
    [("provider", PyVal.str "aws"), ("type", PyVal.str "cloud-volume"),
     ("instanceType", PyVal.str "m5"), ("priceUSD_hourly", PyVal.num 3),
     ("lastUpdated", PyVal.str "t")] (by rfl)

/-- C6: a record whose type is cloud-server, dedicated-server or
dedicated-auction and which is missing vCPU or memoryGiB, or has either
of them non-positive, is rejected by validate_instance_data. -/
theorem c6_validator_rejects_underspecified_compute (r : PyDict) (t : String)
    (ht : List.lookup "type" r = some (.str t))
    (hc : t = "cloud-server" ∨ t = "dedicated-server" ∨ t = "dedicated-auction")
    (hm : MissingOrNonPos (List.lookup "vCPU" r) ∨
          MissingOrNonPos (List.lookup "memoryGiB" r)) :
    validate_instance_data r = false := by
  have hspec : ∀ o : Option PyVal, MissingOrNonPos o →
      specOk (o.getD PyVal.none) = false := by
    intro o ho
    rcases ho with h0 | ⟨q, hq, h0⟩
    · subst h0; rfl
    · subst h0
      have hnl : ¬ (0 : ℚ) < q := not_lt.mpr hq
      simp [specOk, pyTruthy, pyIsNum, pyToQ, hnl]
  have hcontains : COMPUTE_TYPES.contains t = true := by
    rcases hc with h | h | h <;> subst h <;> rfl
  have hcomp : computeSpecsOk r = false := by
    simp only [computeSpecsOk, ht, hcontains, if_true]
    rcases hm with h | h <;> simp [dGet, hspec _ h]
  simp [validate_instance_data, hcomp]

/-- Witness for c6_validator_rejects_underspecified_compute: a record of
type cloud-server with no vCPU field is rejected. -/
theorem c6_validator_rejects_underspecified_compute_witness :
    validate_instance_data [("type", PyVal.str "cloud-server")] = false :=
  c6_validator_rejects_underspecified_compute
    [("type", PyVal.str "cloud-server")] "cloud-server" rfl (Or.inl rfl)
    (Or.inl (Or.inl rfl))

/-- C3 counterexample: normalizing the empty source record for hetzner
succeeds, and the returned record's diskType field is None rather than a
type-appropriate zero value, contrary to the claim that absent fields
default to zero values and that no field is ever None. -/
theorem c3_counterexample :
    Except.map (fun out => List.lookup "diskType" out)
      (_normalize_hetzner [] "t") = .ok (some PyVal.none) := rfl

/-- Per-field defaults of a successful hetzner normalization (helper for
the C3 theorem): each field absent from the source takes the constant
hard-wired at data_normalizer.py lines 53-73. -/
theorem hetzner_absent_defaults (d : PyDict) (now : String) (out : PyDict)
    (h : _normalize_hetzner d now = .ok out) :
    (List.lookup "diskType" d = Option.none →
      List.lookup "diskType" out = some PyVal.none) ∧
    (List.lookup "diskSizeGB" d = Option.none →
      List.lookup "diskSizeGB" out = some PyVal.none) ∧
    (List.lookup "type" d = Option.none →
      List.lookup "type" out = some (PyVal.str "cloud-server")) ∧
    (List.lookup "instanceType" d = Option.none →
      List.lookup "instanceType" out = some (PyVal.str "")) ∧
    (List.lookup "vCPU" d = Option.none →
      List.lookup "vCPU" out = some (PyVal.num 0)) ∧
    (List.lookup "memoryGiB" d = Option.none →
      List.lookup "memoryGiB" out = some (PyVal.num 0)) ∧
    (List.lookup "priceEUR_hourly_net" d = Option.none →
      List.lookup "priceUSD_hourly" out = some (PyVal.num 0)) ∧
    (List.lookup "priceEUR_monthly_net" d = Option.none →
      List.lookup "priceUSD_monthly" out = some (PyVal.num 0)) ∧
    (List.lookup "locations" d = Option.none →
      List.lookup "regions" out = some (PyVal.list [])) ∧
    (List.lookup "deprecated" d = Option.none →
      List.lookup "deprecated" out = some (PyVal.bool false)) ∧
    (List.lookup "source" d = Option.none →
      List.lookup "source" out = some (PyVal.str "hetzner_api")) ∧
    (List.lookup "description" d = Option.none →
      List.lookup "description" out = some (PyVal.str "")) := by
  unfold _normalize_hetzner at h
  simp only [] at h
  split at h
  next e hH => exact absurd h (by simp)
  next usdH hH =>
    split at h
    next e hM => exact absurd h (by simp)
    next usdM hM =>
      simp only [Except.ok.injEq] at h
      subst h
      refine ⟨?_, ?_, ?_, ?_, ?_, ?_, ?_, ?_, ?_, ?_, ?_, ?_⟩ <;>
        intro habs <;>
        simp only [List.lookup, dGet, habs, Option.getD_none] <;>
        try rfl
      · rw [dGet, habs, Option.getD_none] at hH
        have h0 : usdH = 0 := by
          simpa [convUSD, pyTruthy] using hH.symm
        subst h0
        with_unfolding_all rfl
      · rw [dGet, habs, Option.getD_none] at hM
        have h0 : usdM = 0 := by
          simpa [convUSD, pyTruthy] using hM.symm
        subst h0
        with_unfolding_all rfl

/-- Per-field defaults of a successful placeholder normalization (helper
for the C3 theorem): aws, azure, gcp, oci and ovh (data_normalizer.py
lines 76-149) hard-wire provider and type, and default every absent
source field to 0, the empty string or the empty list; priceUSD_monthly
is priceUSD * 24 * 30, which is 0 when priceUSD is absent. -/
theorem placeholder_absent_defaults (pname : String) (d : PyDict)
    (now : String) (out : PyDict)
    (h : normalizePlaceholder pname d now = .ok out) :
    List.lookup "provider" out = some (PyVal.str pname) ∧
    List.lookup "type" out = some (PyVal.str "cloud-server") ∧
    (List.lookup "instanceType" d = Option.none →
      List.lookup "instanceType" out = some (PyVal.str "")) ∧
    (List.lookup "vCPU" d = Option.none →
      List.lookup "vCPU" out = some (PyVal.num 0)) ∧
    (List.lookup "memoryGiB" d = Option.none →
      List.lookup "memoryGiB" out = some (PyVal.num 0)) ∧
    (List.lookup "priceUSD" d = Option.none →
      List.lookup "priceUSD_hourly" out = some (PyVal.num 0) ∧
      List.lookup "priceUSD_monthly" out = some (PyVal.num 0)) ∧
    (List.lookup "regions" d = Option.none →
      List.lookup "regions" out = some (PyVal.list [])) := by
  unfold normalizePlaceholder at h
  simp only [] at h
  split at h
  next e hm => exact absurd h (by simp)
  next pm hm =>
    simp only [Except.ok.injEq] at h
    subst h
    refine ⟨rfl, rfl, ?_, ?_, ?_, ?_, ?_⟩
    · intro habs
      simp [List.lookup, dGet, habs]
    · intro habs
      simp [List.lookup, dGet, habs]
    · intro habs
      simp [List.lookup, dGet, habs]
    · intro habs
      rw [dGet, habs, Option.getD_none] at hm
      simp [pyMulNat] at hm
      subst hm
      constructor
      · simp [List.lookup, dGet, habs]
      · simp [List.lookup]
    · intro habs
      simp [List.lookup, dGet, habs]

/-- C3 amended: for every known provider, a record returned by a
successful normalize_instance_data call has each canonical field that
is absent from the source record set to the non-None constant
hard-wired in the source.  For hetzner those defaults are 0 for vCPU,
memoryGiB and (when the EUR source fields are absent) both USD prices,
the empty string for instanceType and description, the empty list for
regions, False for deprecated, and the non-zero strings "cloud-server"
for type and "hetzner_api" for source — while diskType and diskSizeGB,
via data.get's None default, become None, as the counterexample shows.
For aws, azure, gcp, oci and ovh, provider and type are the constants
of the normalizer, and absent instanceType, vCPU, memoryGiB, priceUSD
and regions default to the empty string, 0, 0, 0 (both USD fields) and
the empty list. -/
theorem c3_field_defaulting_amended (d : PyDict) (now : String) :
    (∀ out, normalize_instance_data d "hetzner" now = .ok out →
      (List.lookup "diskType" d = Option.none →
        List.lookup "diskType" out = some PyVal.none) ∧
      (List.lookup "diskSizeGB" d = Option.none →
        List.lookup "diskSizeGB" out = some PyVal.none) ∧
      (List.lookup "type" d = Option.none →
        List.lookup "type" out = some (PyVal.str "cloud-server")) ∧
      (List.lookup "instanceType" d = Option.none →
        List.lookup "instanceType" out = some (PyVal.str "")) ∧
      (List.lookup "vCPU" d = Option.none →
        List.lookup "vCPU" out = some (PyVal.num 0)) ∧
      (List.lookup "memoryGiB" d = Option.none →
        List.lookup "memoryGiB" out = some (PyVal.num 0)) ∧
      (List.lookup "priceEUR_hourly_net" d = Option.none →
        List.lookup "priceUSD_hourly" out = some (PyVal.num 0)) ∧
      (List.lookup "priceEUR_monthly_net" d = Option.none →
        List.lookup "priceUSD_monthly" out = some (PyVal.num 0)) ∧
      (List.lookup "locations" d = Option.none →
        List.lookup "regions" out = some (PyVal.list [])) ∧
      (List.lookup "deprecated" d = Option.none →
        List.lookup "deprecated" out = some (PyVal.bool false)) ∧
      (List.lookup "source" d = Option.none →
        List.lookup "source" out = some (PyVal.str "hetzner_api")) ∧
      (List.lookup "description" d = Option.none →
        List.lookup "description" out = some (PyVal.str ""))) ∧
    (∀ p out, (p = "aws" ∨ p = "azure" ∨ p = "gcp" ∨ p = "oci" ∨ p = "ovh") →
      normalize_instance_data d p now = .ok out →
      List.lookup "provider" out = some (PyVal.str p) ∧
      List.lookup "type" out = some (PyVal.str "cloud-server") ∧
      (List.lookup "instanceType" d = Option.none →
        List.lookup "instanceType" out = some (PyVal.str "")) ∧
      (List.lookup "vCPU" d = Option.none →
        List.lookup "vCPU" out = some (PyVal.num 0)) ∧
      (List.lookup "memoryGiB" d = Option.none →
        List.lookup "memoryGiB" out = some (PyVal.num 0)) ∧
      (List.lookup "priceUSD" d = Option.none →
        List.lookup "priceUSD_hourly" out = some (PyVal.num 0) ∧
        List.lookup "priceUSD_monthly" out = some (PyVal.num 0)) ∧
      (List.lookup "regions" d = Option.none →
        List.lookup "regions" out = some (PyVal.list []))) := by
  constructor
  · intro out h
    refine hetzner_absent_defaults d now out ?_
    simpa [normalize_instance_data] using h
  · intro p out hp h
    refine placeholder_absent_defaults p d now out ?_
    rcases hp with rfl | rfl | rfl | rfl | rfl <;>
      simpa [normalize_instance_data, _normalize_aws, _normalize_azure,
        _normalize_gcp, _normalize_oci, _normalize_ovh] using h

/-- Witness for c3_field_defaulting_amended at the empty source record,
for hetzner and for the placeholder provider aws. -/
theorem c3_field_defaulting_amended_witness :
    (List.lookup "diskType"
        [("provider", PyVal.str "hetzner"),
         ("type", PyVal.str "cloud-server"),
         ("instanceType", PyVal.str ""),
         ("vCPU", PyVal.num 0),
         ("memoryGiB", PyVal.num 0),
         ("diskType", PyVal.none),
         ("diskSizeGB", PyVal.none),
         ("priceUSD_hourly", PyVal.num 0),
         ("priceUSD_monthly", PyVal.num 0),
         ("originalPrice", PyVal.dict [("hourly", PyVal.num 0),
            ("monthly", PyVal.num 0), ("currency", PyVal.str "EUR")]),
         ("regions", PyVal.list []),
         ("deprecated", PyVal.bool false),
         ("source", PyVal.str "hetzner_api"),
         ("description", PyVal.str ""),
         ("lastUpdated", PyVal.str "t"),
         ("raw", PyVal.dict [])] = some PyVal.none) ∧
    (List.lookup "provider"
        [("provider", PyVal.str "aws"),
         ("type", PyVal.str "cloud-server"),
         ("instanceType", PyVal.str ""),
         ("vCPU", PyVal.num 0),
         ("memoryGiB", PyVal.num 0),
         ("priceUSD_hourly", PyVal.num 0),
         ("priceUSD_monthly", PyVal.num 0),
         ("regions", PyVal.list []),
         ("lastUpdated", PyVal.str "t"),
         ("raw", PyVal.dict [])] = some (PyVal.str "aws")) ∧
    (List.lookup "priceUSD_monthly"
        [("provider", PyVal.str "aws"),
         ("type", PyVal.str "cloud-server"),
         ("instanceType", PyVal.str ""),
         ("vCPU", PyVal.num 0),
         ("memoryGiB", PyVal.num 0),
         ("priceUSD_hourly", PyVal.num 0),
         ("priceUSD_monthly", PyVal.num 0),
         ("regions", PyVal.list []),
         ("lastUpdated", PyVal.str "t"),
         ("raw", PyVal.dict [])] = some (PyVal.num 0)) := by
  obtain ⟨hd, -, -, -, -, -, -, -, -, -, -, -⟩ :=
    (c3_field_defaulting_amended [] "t").1
      [("provider", PyVal.str "hetzner"),
       ("type", PyVal.str "cloud-server"),
       ("instanceType", PyVal.str ""),
       ("vCPU", PyVal.num 0),
       ("memoryGiB", PyVal.num 0),
       ("diskType", PyVal.none),
       ("diskSizeGB", PyVal.none),
       ("priceUSD_hourly", PyVal.num 0),
       ("priceUSD_monthly", PyVal.num 0),
       ("originalPrice", PyVal.dict [("hourly", PyVal.num 0),
          ("monthly", PyVal.num 0), ("currency", PyVal.str "EUR")]),
       ("regions", PyVal.list []),
       ("deprecated", PyVal.bool false),
       ("source", PyVal.str "hetzner_api"),
       ("description", PyVal.str ""),
       ("lastUpdated", PyVal.str "t"),
       ("raw", PyVal.dict [])] (by with_unfolding_all rfl)
  obtain ⟨hp, -, -, -, -, husd, -⟩ :=
    (c3_field_defaulting_amended [] "t").2 "aws"
      [("provider", PyVal.str "aws"),
       ("type", PyVal.str "cloud-server"),
       ("instanceType", PyVal.str ""),
       ("vCPU", PyVal.num 0),
       ("memoryGiB", PyVal.num 0),
       ("priceUSD_hourly", PyVal.num 0),
       ("priceUSD_monthly", PyVal.num 0),
       ("regions", PyVal.list []),
       ("lastUpdated", PyVal.str "t"),
       ("raw", PyVal.dict [])] (Or.inl rfl) (by with_unfolding_all rfl)
  exact ⟨hd rfl, hp, (husd rfl).2⟩

/-- C10: dispatching on an unknown provider raises
`ValueError("Unknown provider: ...")`, and any error produced inside the
hetzner-specific normalizer is re-raised unchanged by
normalize_instance_data. -/
theorem c10_unknown_provider_and_reraise (d : PyDict) (provider now : String) :
    (provider ∉ ["hetzner", "aws", "azure", "gcp", "oci", "ovh"] →
      normalize_instance_data d provider now =
        .error (.valueError ("Unknown provider: " ++ provider))) ∧
    (∀ e, _normalize_hetzner d now = .error e →
      normalize_instance_data d "hetzner" now = .error e) := by
  constructor
  · intro hu
    simp only [List.mem_cons, List.not_mem_nil, or_false, not_or] at hu
    obtain ⟨h1, h2, h3, h4, h5, h6⟩ := hu
    simp [normalize_instance_data, h1, h2, h3, h4, h5, h6]
  · intro e he
    simpa [normalize_instance_data] using he

/-- Witness for c10_unknown_provider_and_reraise: the provider name
digitalocean is rejected with a ValueError, and a hetzner record whose
price field is a non-empty string makes the hetzner normalizer raise
TypeError (from `"x" * 1.1`), which the dispatcher re-raises. -/
theorem c10_unknown_provider_and_reraise_witness :
    normalize_instance_data [] "digitalocean" "t" =
      .error (.valueError "Unknown provider: digitalocean") ∧
    normalize_instance_data [("priceEUR_hourly_net", PyVal.str "x")]
      "hetzner" "t" = .error .typeError :=
  ⟨(c10_unknown_provider_and_reraise [] "digitalocean" "t").1 (by simp),
   (c10_unknown_provider_and_reraise [("priceEUR_hourly_net", PyVal.str "x")]
      "hetzner" "t").2 .typeError rfl⟩

theorem foldl_extend (l : List (String × List PyDict)) (acc : List PyDict) :
    l.foldl (fun a pr => a ++ pr.2) acc = acc ++ (l.map Prod.snd).flatten := by
  induction l generalizing acc with
  | nil => simp
  | cons x xs ih => simp [ih, List.append_assoc]

/-- The combined dataset is the concatenation of provider contributions
in completion order (shared helper for the orchestrator theorems). -/
theorem combine_eq_flatten (impl : String → Except String (List PyDict))
    (order : List String) :
    combineResults (fetch_all_providers impl order) =
      (order.map (providerContribution impl)).flatten := by
  induction order with
  | nil => rfl
  | cons p rest ih =>
    have hstep : (fetch_all_providers impl (p :: rest)).results =
        (p, providerContribution impl p) ::
          (fetch_all_providers impl rest).results := by
      cases himpl : impl p with
      | ok data =>
        simp [fetch_all_providers, _fetch_provider_data, providerContribution,
          himpl]
      | error e =>
        by_cases he : e = "" <;>
          simp [fetch_all_providers, _fetch_provider_data, providerContribution,
            himpl, he]
    unfold combineResults at ih ⊢
    rw [hstep, List.foldl_cons, foldl_extend]
    rw [foldl_extend, List.nil_append] at ih
    simp [ih]

/-- C4 counterexample: when the aws task completes before the hetzner
task, the combined output list is NOT the concatenation of provider
results in submission order — self.results is populated in completion
order and run() never re-sorts it. -/
theorem c4_counterexample :
    combineResults (fetch_all_providers c4impl
        ["aws", "hetzner", "azure", "gcp", "oci", "ovh"]) ≠
      (PROVIDERS.map (providerContribution c4impl)).flatten := by
  have h1 : combineResults (fetch_all_providers c4impl
      ["aws", "hetzner", "azure", "gcp", "oci", "ovh"]) =
      [[("n", PyVal.num 2)], [("n", PyVal.num 1)]] := rfl
  have h2 : (PROVIDERS.map (providerContribution c4impl)).flatten =
      [[("n", PyVal.num 1)], [("n", PyVal.num 2)]] := rfl
  rw [h1, h2]
  intro h
  have hq := congrArg (fun l => List.lookup "n" (l.headD [])) h
  simp at hq

/-- C4 amended: the combined output list is the concatenation of each
provider's records in task COMPLETION order (the insertion order of
self.results), with each provider's internal order preserved; it is
deterministic only for a fixed completion order, not independent of it. -/
theorem c4_aggregation_completion_order
    (impl : String → Except String (List PyDict)) (order : List String) :
    combineResults (fetch_all_providers impl order) =
      (order.map (providerContribution impl)).flatten :=
  combine_eq_flatten impl order

/-- C1 counterexample: when the hetzner fetch function raises an
exception with an empty message, `if error:` is falsy, so the
orchestrator records nothing at all in the error map, contrary to the
claim that it records a non-empty error message. -/
theorem c1_counterexample :
    c1impl "hetzner" = .error "" ∧
    (fetch_all_providers c1impl PROVIDERS).errors = [] ∧
    List.lookup "hetzner" (fetch_all_providers c1impl PROVIDERS).results =
      some [] := ⟨rfl, rfl, rfl⟩

/-- C1 amended: when one provider's fetch function raises an exception
with a NON-EMPTY message on every call, the orchestrator records that
message for the provider in its error map, assigns the provider an empty
result list, and the aggregated output still contains every record
produced by each other succeeding provider. -/
theorem c1_provider_isolation_amended
    (impl : String → Except String (List PyDict)) (order : List String)
    (A msg : String) (hA : impl A = .error msg) (hne : msg ≠ "")
    (hmem : A ∈ order) :
    List.lookup A (fetch_all_providers impl order).errors = some msg ∧
    List.lookup A (fetch_all_providers impl order).results = some [] ∧
    ∀ B data, impl B = .ok data → B ∈ order →
      ∀ r ∈ data, r ∈ combineResults (fetch_all_providers impl order) := by
  refine ⟨?_, ?_, ?_⟩
  · induction order with
    | nil => simp at hmem
    | cons p rest ih =>
      unfold fetch_all_providers _fetch_provider_data
      by_cases hp : p = A
      · subst hp
        rw [hA]
        simp [hne, List.lookup, hne]
      · have hAr : A ∈ rest := by
          rcases List.mem_cons.mp hmem with h | h
          · exact absurd h.symm hp
          · exact h
        have hbeq : (A == p) = false := by
          simp [BEq.beq]
          exact fun h => hp h.symm
        cases himpl : impl p with
        | ok data => simp [List.lookup, hbeq, ih hAr]
        | error e =>
          by_cases he : e = "" <;> simp [he, List.lookup, hbeq, ih hAr]
  · induction order with
    | nil => simp at hmem
    | cons p rest ih =>
      unfold fetch_all_providers _fetch_provider_data
      by_cases hp : p = A
      · subst hp
        rw [hA]
        simp [hne, List.lookup]
      · have hAr : A ∈ rest := by
          rcases List.mem_cons.mp hmem with h | h
          · exact absurd h.symm hp
          · exact h
        have hbeq : (A == p) = false := by
          simp [BEq.beq]
          exact fun h => hp h.symm
        cases himpl : impl p with
        | ok data => simp [List.lookup, hbeq, ih hAr]
        | error e =>
          by_cases he : e = "" <;> simp [he, List.lookup, hbeq, ih hAr]
  · intro B data hB hBmem r hr
    rw [combine_eq_flatten]
    have hcontr : providerContribution impl B = data := by
      unfold providerContribution
      rw [hB]
    refine List.mem_flatten.mpr ⟨data, ?_, hr⟩
    rw [← hcontr]
    exact List.mem_map_of_mem (providerContribution impl) hBmem

/-- Witness for c1_provider_isolation_amended at concrete inputs. -/
theorem c1_provider_isolation_amended_witness :
    List.lookup "hetzner" (fetch_all_providers c1wimpl PROVIDERS).errors =
      some "boom" ∧
    List.lookup "hetzner" (fetch_all_providers c1wimpl PROVIDERS).results =
      some [] ∧
    [("n", PyVal.num 3)] ∈ combineResults (fetch_all_providers c1wimpl PROVIDERS) := by
  obtain ⟨h1, h2, h3⟩ :=
    c1_provider_isolation_amended c1wimpl PROVIDERS "hetzner" "boom" rfl
      (by decide) (by simp [PROVIDERS])
  exact ⟨h1, h2, h3 "aws" [[("n", PyVal.num 3)]] rfl (by simp [PROVIDERS]) _
    (by simp)⟩

/-- C5 counterexample: with an empty combined dataset and a non-empty
error map, the generated summary does NOT contain the errors mapping,
contrary to the claim that every run's summary carries it. -/
theorem c5_counterexample :
    Except.map Summary.errors
      (_generate_summary [] [("hetzner", "boom")] "t") = .ok Option.none := rfl

/-- C5 amended: whenever the combined dataset is non-empty and summary
generation succeeds, the summary carries the full error map; when the
combined dataset is empty, the summary omits the errors mapping
entirely. -/
theorem c5_summary_errors_amended (allData : List PyDict)
    (errs : List (String × String)) (now : String) (s : Summary)
    (hne : allData ≠ []) (h : _generate_summary allData errs now = .ok s) :
    s.errors = some errs := by
  cases allData with
  | nil => exact absurd rfl hne
  | cons a l =>
    unfold _generate_summary at h
    simp only [List.isEmpty_cons, Bool.false_eq_true, if_false] at h
    split at h
    next e => simp at h
    next prices hp =>
      split at h
      next e => simp at h
      next byProv hbp =>
        split at h
        next e => simp at h
        next byType hbt =>
          simp only [Except.ok.injEq] at h
          subst h
          rfl

/-- Witness for c5_summary_errors_amended at a concrete one-record
dataset. -/
theorem c5_summary_errors_amended_witness :
    Summary.errors ⟨1, 1, "t", PyVal.num 2, PyVal.num 2,
      [(PyVal.str "hetzner", 1)], [(PyVal.str "cloud-server", 1)],
      some [("aws", "x")]⟩ = some [("aws", "x")] := by
  have h : _generate_summary
      [[("provider", PyVal.str "hetzner"), ("type", PyVal.str "cloud-server"),
        ("priceUSD_hourly", PyVal.num 2)]] [("aws", "x")] "t" =
      .ok ⟨1, 1, "t", PyVal.num 2, PyVal.num 2,
        [(PyVal.str "hetzner", 1)], [(PyVal.str "cloud-server", 1)],
        some [("aws", "x")]⟩ := rfl
  exact c5_summary_errors_amended _ _ _ _ (List.cons_ne_nil _ _) h

/-- One unfolding step of the v1 loop against a constant-500 server. -/
theorem loop500_v1_step (rc : ℕ) (key : String) (now : ℚ) (c : Cache)
    (fuel attempt calls : ℕ) (sleeps : List Sleep) :
    makeApiRequestLoop (fun _ => HttpResp.status 500 Option.none) rc key now c
      (fuel + 1) attempt calls sleeps =
    (if attempt < rc then
      makeApiRequestLoop (fun _ => HttpResp.status 500 Option.none) rc key now c
        fuel (attempt + 1) (calls + 1)
        ((if 0 < attempt then sleeps ++ [Sleep.rate] else sleeps) ++
          [Sleep.back (API_RETRY_DELAY * 2 ^ attempt)])
    else
      makeApiRequestLoop (fun _ => HttpResp.status 500 Option.none) rc key now c
        fuel (attempt + 1) (calls + 1)
        (if 0 < attempt then sleeps ++ [Sleep.rate] else sleeps)) := by
  simp [makeApiRequestLoop]

/-- Trace of the v1 retry loop against a server that answers 500 on
every attempt: the loop performs every remaining iteration, returns
None, leaves the cache alone, and backs off API_RETRY_DELAY * 2^i after
every attempt except the last. -/
theorem loop500_v1 (rc : ℕ) (key : String) (now : ℚ) (c : Cache) :
    ∀ fuel attempt calls sleeps, attempt + fuel = rc + 1 →
      (makeApiRequestLoop (fun _ => HttpResp.status 500 Option.none) rc key now c
          fuel attempt calls sleeps).result = Option.none ∧
      (makeApiRequestLoop (fun _ => HttpResp.status 500 Option.none) rc key now c
          fuel attempt calls sleeps).calls = calls + fuel ∧
      (makeApiRequestLoop (fun _ => HttpResp.status 500 Option.none) rc key now c
          fuel attempt calls sleeps).sleeps.filterMap backoffSecs =
        sleeps.filterMap backoffSecs ++
          (List.range' attempt (fuel - 1)).map
            (fun i => API_RETRY_DELAY * 2 ^ i) := by
  intro fuel
  induction fuel with
  | zero =>
    intro attempt calls sleeps hinv
    simp [makeApiRequestLoop]
  | succ n ih =>
    intro attempt calls sleeps hinv
    have hfm : ∀ s : List Sleep,
        ((if 0 < attempt then s ++ [Sleep.rate] else s).filterMap backoffSecs) =
          s.filterMap backoffSecs := by
      intro s
      by_cases h0 : 0 < attempt <;> simp [h0, backoffSecs]
    rw [loop500_v1_step]
    by_cases hlt : attempt < rc
    · rw [if_pos hlt]
      have hrec := ih (attempt + 1) (calls + 1)
        ((if 0 < attempt then sleeps ++ [Sleep.rate] else sleeps) ++
          [Sleep.back (API_RETRY_DELAY * 2 ^ attempt)]) (by omega)
      refine ⟨hrec.1, by rw [hrec.2.1]; omega, ?_⟩
      rw [hrec.2.2]
      obtain ⟨m, rfl⟩ : ∃ m, n = m + 1 := ⟨n - 1, by omega⟩
      have hr : m + 1 + 1 - 1 = m + 1 := by omega
      rw [hr, List.range'_succ]
      simp [hfm, backoffSecs, List.filterMap_append]
    · rw [if_neg hlt]
      have hn : n = 0 := by omega
      subst hn
      simp [makeApiRequestLoop, hfm]

/-- Trace of the v2 retry loop against a server that answers 500 on
every attempt: every remaining iteration runs and sleeps only the
unconditional rate-limit delay (a 5xx status falls into the bare else
branch, which neither sleeps a backoff nor returns), then None is
returned. -/
theorem loop500_v2 (rc : ℕ) (key : String) (now : ℚ) (c : Cache) :
    ∀ fuel attempt calls sleeps,
      (HetznerAPIClient.makeRequestLoop (fun _ => HttpResp.status 500 Option.none)
          rc key now c fuel attempt calls sleeps).result = V2Result.ret Option.none ∧
      (HetznerAPIClient.makeRequestLoop (fun _ => HttpResp.status 500 Option.none)
          rc key now c fuel attempt calls sleeps).calls = calls + fuel ∧
      (HetznerAPIClient.makeRequestLoop (fun _ => HttpResp.status 500 Option.none)
          rc key now c fuel attempt calls sleeps).sleeps =
        sleeps ++ List.replicate fuel Sleep.rate := by
  intro fuel
  induction fuel with
  | zero =>
    intro attempt calls sleeps
    simp [HetznerAPIClient.makeRequestLoop]
  | succ n ih =>
    intro attempt calls sleeps
    have hrec := ih (attempt + 1) (calls + 1) (sleeps ++ [Sleep.rate])
    simp only [HetznerAPIClient.makeRequestLoop]
    norm_num
    refine ⟨hrec.1, by rw [hrec.2.1]; omega, ?_⟩
    rw [hrec.2.2]
    simp [List.replicate_succ]

/-- C7 counterexample: with retry_count = 3, a server that always
responds 500 makes the v1 client return None — the very same value it
returns for a 404 — so the failure is not a typed ServerError
distinguishable from other results; and the v2 client performs no
exponential backoff at all on persistent 500s (no time.sleep backoff in
its trace). -/
theorem c7_counterexample :
    (make_api_request (fun _ => HttpResp.status 500 Option.none) 3
        "server_types" "p" [] 0).result = Option.none ∧
    (make_api_request (fun _ => HttpResp.status 404 Option.none) 3
        "server_types" "p" [] 0).result = Option.none ∧
    (HetznerAPIClient._make_request (fun _ => HttpResp.status 500 Option.none) 3
        "u" "h" [] 0).calls = 4 ∧
    (HetznerAPIClient._make_request (fun _ => HttpResp.status 500 Option.none) 3
        "u" "h" [] 0).sleeps.filterMap backoffSecs = [] := ⟨rfl, rfl, rfl, rfl⟩

/-- C7 amended: a server that always responds 500 causes exactly
retryCount + 1 attempts in both clients; the v1 client sleeps a backoff
of API_RETRY_DELAY * 2^i after each attempt i except the last, the v2
client performs no backoff; both then return None (the untyped failure
value shared with every other failure kind) rather than a typed
ServerError. -/
theorem c7_retry_ceiling_amended (rc : ℕ) (url params headers : String)
    (now : ℚ) :
    (make_api_request (fun _ => HttpResp.status 500 Option.none) rc
        url params [] now).result = Option.none ∧
    (make_api_request (fun _ => HttpResp.status 500 Option.none) rc
        url params [] now).calls = rc + 1 ∧
    (make_api_request (fun _ => HttpResp.status 500 Option.none) rc
        url params [] now).sleeps.filterMap backoffSecs =
      (List.range rc).map (fun i => API_RETRY_DELAY * 2 ^ i) ∧
    (HetznerAPIClient._make_request (fun _ => HttpResp.status 500 Option.none) rc
        url headers [] now).result = V2Result.ret Option.none ∧
    (HetznerAPIClient._make_request (fun _ => HttpResp.status 500 Option.none) rc
        url headers [] now).calls = rc + 1 ∧
    (HetznerAPIClient._make_request (fun _ => HttpResp.status 500 Option.none) rc
        url headers [] now).sleeps.filterMap backoffSecs = [] := by
  have h1 := loop500_v1 rc (url ++ "_" ++ params) now [] (rc + 1) 0 0 [] (by omega)
  have h2 := loop500_v2 rc ("http_" ++ url ++ "_" ++ headers) now [] (rc + 1) 0 0 []
  have e1 : make_api_request (fun _ => HttpResp.status 500 Option.none) rc
      url params [] now =
      makeApiRequestLoop (fun _ => HttpResp.status 500 Option.none) rc
        (url ++ "_" ++ params) now [] (rc + 1) 0 0 [] := by
    simp [make_api_request, get_from_cache, cacheFind]
  have e2 : HetznerAPIClient._make_request
      (fun _ => HttpResp.status 500 Option.none) rc url headers [] now =
      HetznerAPIClient.makeRequestLoop (fun _ => HttpResp.status 500 Option.none)
        rc ("http_" ++ url ++ "_" ++ headers) now [] (rc + 1) 0 0 [] := by
    simp [HetznerAPIClient._make_request, HetznerAPIClient._get_from_cache,
      cacheFind]
  rw [e1, e2]
  refine ⟨h1.1, by rw [h1.2.1]; omega, ?_, h2.1, by rw [h2.2.1]; omega, ?_⟩
  · rw [h1.2.2]
    simp [List.range_eq_range']
  · rw [h2.2.2]
    simp [backoffSecs, List.filterMap_replicate]

/-- Looking a key up after the replace-in-place branch of set_cache. -/
theorem cacheFind_map_set (c : Cache) (key : String) (d : PyVal) (t : ℚ) :
    cacheFind (c.map (fun e => if e.1 = key then (key, d, t) else e)) key =
      if (cacheFind c key).isSome then some (d, t) else Option.none := by
  induction c with
  | nil => simp [cacheFind]
  | cons e rest ih =>
    obtain ⟨k, v, ts⟩ := e
    by_cases hk : k = key
    · subst hk
      have hhead : (if (k, v, ts).1 = k then (k, d, t) else (k, v, ts)) =
          (k, d, t) := by simp
      rw [List.map_cons, hhead]
      simp [cacheFind]
    · have hhead : (if (k, v, ts).1 = key then (key, d, t) else (k, v, ts)) =
          (k, v, ts) := by simp [hk]
      rw [List.map_cons, hhead]
      simp [cacheFind, hk, ih]

/-- Looking a key up after the append branch of set_cache. -/
theorem cacheFind_append_single (c : Cache) (key : String) (d : PyVal) (t : ℚ)
    (h : cacheFind c key = Option.none) :
    cacheFind (c ++ [(key, d, t)]) key = some (d, t) := by
  induction c with
  | nil => simp [cacheFind]
  | cons e rest ih =>
    obtain ⟨k, v, ts⟩ := e
    by_cases hk : k = key
    · subst hk
      simp [cacheFind] at h
    · simp [cacheFind, hk] at h ⊢
      exact ih h

/-- set_cache always leaves the stored entry where cacheFind finds it. -/
theorem cacheFind_set (c : Cache) (key : String) (d : PyVal) (t : ℚ) :
    cacheFind (set_cache c key d t) key = some (d, t) := by
  unfold set_cache
  by_cases hs : (cacheFind c key).isSome
  · simp [hs, cacheFind_map_set]
  · have hn : cacheFind c key = Option.none := by
      cases hcf : cacheFind c key with
      | none => rfl
      | some x => rw [hcf] at hs; simp at hs
    simp [hs, cacheFind_append_single c key d t hn]

/-- C8: when the first call misses the cache and its first attempt
answers 200, it issues exactly one network request, stores the parsed
response, and a second call with the same url and params within
CACHE_DURATION of it issues zero network requests and returns the
cached parsed response — one network request in total, whatever the
network would have answered the second time. -/
theorem c8_cache_correctness
    (resp1 resp2 : ℕ → HttpResp) (rc : ℕ) (url params : String)
    (c0 : Cache) (t1 t2 : ℚ) (d : PyVal)
    (hmiss : (get_from_cache c0 (url ++ "_" ++ params) t1).1 = Option.none)
    (h200 : resp1 0 = HttpResp.status 200 (some d))
    (httl : t2 - t1 < CACHE_DURATION) :
    (make_api_request resp1 rc url params c0 t1).result = some d ∧
    (make_api_request resp1 rc url params c0 t1).calls = 1 ∧
    (make_api_request resp2 rc url params
        (make_api_request resp1 rc url params c0 t1).cache t2).result = some d ∧
    (make_api_request resp2 rc url params
        (make_api_request resp1 rc url params c0 t1).cache t2).calls = 0 ∧
    (make_api_request resp2 rc url params
        (make_api_request resp1 rc url params c0 t1).cache t2).sleeps = [] := by
  have hg : get_from_cache c0 (url ++ "_" ++ params) t1 =
      (Option.none, (get_from_cache c0 (url ++ "_" ++ params) t1).2) := by
    conv_lhs => rw [← Prod.mk.eta (p := get_from_cache c0 (url ++ "_" ++ params) t1)]
    rw [hmiss]
  have e1 : make_api_request resp1 rc url params c0 t1 =
      ⟨some d,
       set_cache (get_from_cache c0 (url ++ "_" ++ params) t1).2
         (url ++ "_" ++ params) d t1, 1, []⟩ := by
    simp only [make_api_request]
    rw [hg]
    simp [makeApiRequestLoop, h200]
  have hg2 : get_from_cache
      (set_cache (get_from_cache c0 (url ++ "_" ++ params) t1).2
        (url ++ "_" ++ params) d t1) (url ++ "_" ++ params) t2 =
      (some d,
       set_cache (get_from_cache c0 (url ++ "_" ++ params) t1).2
         (url ++ "_" ++ params) d t1) := by
    simp only [get_from_cache]
    rw [cacheFind_set]
    simp [httl]
  have e2 : make_api_request resp2 rc url params
      (set_cache (get_from_cache c0 (url ++ "_" ++ params) t1).2
        (url ++ "_" ++ params) d t1) t2 =
      ⟨some d,
       set_cache (get_from_cache c0 (url ++ "_" ++ params) t1).2
         (url ++ "_" ++ params) d t1, 0, []⟩ := by
    simp only [make_api_request]
    rw [hg2]
  simp [e1, e2]

/-- Witness for c8_cache_correctness: the second call returns the
cached value even though the network would now answer 500. -/
theorem c8_cache_correctness_witness :
    (make_api_request (fun _ => HttpResp.status 200 (some (PyVal.num 7))) 3
        "u" "p" [] 0).result = some (PyVal.num 7) ∧
    (make_api_request (fun _ => HttpResp.status 200 (some (PyVal.num 7))) 3
        "u" "p" [] 0).calls = 1 ∧
    (make_api_request (fun _ => HttpResp.status 500 Option.none) 3 "u" "p"
        (make_api_request (fun _ => HttpResp.status 200 (some (PyVal.num 7))) 3
          "u" "p" [] 0).cache 100).result = some (PyVal.num 7) ∧
    (make_api_request (fun _ => HttpResp.status 500 Option.none) 3 "u" "p"
        (make_api_request (fun _ => HttpResp.status 200 (some (PyVal.num 7))) 3
          "u" "p" [] 0).cache 100).calls = 0 ∧
    (make_api_request (fun _ => HttpResp.status 500 Option.none) 3 "u" "p"
        (make_api_request (fun _ => HttpResp.status 200 (some (PyVal.num 7))) 3
          "u" "p" [] 0).cache 100).sleeps = [] :=
  c8_cache_correctness
    (fun _ => HttpResp.status 200 (some (PyVal.num 7)))
    (fun _ => HttpResp.status 500 Option.none) 3 "u" "p" [] 0 100
    (PyVal.num 7) rfl rfl (by norm_num [CACHE_DURATION])

/-- C9 counterexample: the v2 client sleeps the rate-limit delay before
its FIRST attempt, so a request that succeeds immediately still incurs
one rate-limit sleep, contrary to the claim that the delay is applied
only before retries. -/
theorem c9_counterexample :
    (HetznerAPIClient._make_request
        (fun _ => HttpResp.status 200 (some (PyVal.num 1))) 3 "u" "h" [] 0).sleeps
      = [Sleep.rate] := rfl

/-- C9 amended: the v1 client applies the rate-limit delay lazily,
before each retry but never before the first attempt, so a v1 request
that succeeds on its first attempt sleeps nothing; the v2 client
applies the delay before EVERY attempt, so a v2 request that succeeds
on its first attempt incurs exactly one rate-limit sleep. -/
theorem c9_rate_limit_amended (d : PyVal) (rc : ℕ)
    (url params headers : String) (now : ℚ) :
    (make_api_request (fun _ => HttpResp.status 200 (some d)) rc
        url params [] now).sleeps = [] ∧
    (make_api_request (fun _ => HttpResp.status 200 (some d)) rc
        url params [] now).result = some d ∧
    (HetznerAPIClient._make_request (fun _ => HttpResp.status 200 (some d)) rc
        url headers [] now).sleeps = [Sleep.rate] ∧
    (HetznerAPIClient._make_request (fun _ => HttpResp.status 200 (some d)) rc
        url headers [] now).result = V2Result.ret (some d) := by
  refine ⟨?_, ?_, ?_, ?_⟩ <;>
    simp [make_api_request, get_from_cache, cacheFind, makeApiRequestLoop,
      HetznerAPIClient._make_request, HetznerAPIClient._get_from_cache,
      HetznerAPIClient.makeRequestLoop]
